import Mathlib

/-!
Shallow embedding of the installer-hub worker (src/src/index.ts).

The worker registers tools in a lookup table, serves a usage page on the
root route, and on the tool route serves the install script cache-first:
it builds a cache key from the resolved origin URL with method GET, looks
the key up in the edge cache, fetches the origin on a miss, rebuilds the
response with a fixed header set, schedules the store of a clone in the
background via waitUntil, and hands the other copy back to the caller
tagged with an X-Cache-Status header.

The embedding makes the implicit state explicit: the edge cache is an
association list from keys to stored entries, the origin fetch outcome is
a parameter of the handler (a status/body pair when the upstream responds,
or a thrown message on transport failure), and the deferred store is
returned as a pending task that a separate settle step applies to the
cache after the response has been produced.
-/

/-- A registry row: GitHub repository and path of the install script
(interface ToolConfig in src/src/index.ts). -/
structure ToolConfig where
  repo : String
  scriptPath : String
deriving DecidableEq, Repr

/-- The tool registry (constant TOOLS in src/src/index.ts). -/
def TOOLS : List (String × ToolConfig) :=
  [("gohome", ⟨"anIcedAntFA/gohome", "scripts/install.sh"⟩)]

/-- Fallback domain used when the caller sends no host header. -/
def DEFAULT_DOMAIN : String := "get.ngockhoi96.dev"

/-- Cache lifetime in seconds (constant CACHE_TTL in src/src/index.ts). -/
def CACHE_TTL : Nat := 300

/-- Registry lookup, TOOLS[toolName] in the handler. -/
def lookupTool (name : String) : Option ToolConfig :=
  List.lookup name TOOLS

/-- The resolved origin URL of a registered tool (scriptURL in the handler). -/
def scriptURL (cfg : ToolConfig) : String :=
  "https://raw.githubusercontent.com/" ++ cfg.repo ++ "/main/" ++ cfg.scriptPath

/-- A cache key as the Cache API sees it: the request URL and the HTTP
method. The worker builds it as new Request(scriptURL, with method GET and
no further fields), so nothing else enters the key. -/
structure CacheKey where
  url : String
  method : String
deriving DecidableEq, Repr

/-- Key construction from the resolved origin URL (lines 51-53 of
src/src/index.ts): method GET, no headers. -/
def cacheKey (url : String) : CacheKey :=
  ⟨url, "GET"⟩

/-- An inbound request to the tool route: the path parameter and the
caller-supplied header set. -/
structure InboundRequest where
  tool : String
  headers : List (String × String)
deriving DecidableEq, Repr

/-- Header access on the inbound request (ctx.req.header in the code). -/
def headerOf (req : InboundRequest) (name : String) : Option String :=
  List.lookup name req.headers

/-- The cache key the handler builds for an inbound request: none when the
tool is unregistered (the handler returns 404 before building a key),
otherwise the key of the resolved origin URL. The caller headers are not
consulted. -/
def builtCacheKey (req : InboundRequest) : Option CacheKey :=
  (lookupTool req.tool).map (fun cfg => cacheKey (scriptURL cfg))

/-- A stored cache entry: the response the worker put under the key. The
age field records how many seconds the entry has resided in the store; the
store maintains it for expiry, the worker writes 0 at put time and never
reads it. -/
structure CachedEntry where
  status : Nat
  headers : List (String × String)
  body : String
  age : Nat
deriving DecidableEq, Repr

/-- The edge cache contents, keyed association list. -/
abbrev CacheState := List (CacheKey × CachedEntry)

/-- cache.match: lookup by key; absence is a normal result. -/
def cacheMatch (cache : CacheState) (key : CacheKey) : Option CachedEntry :=
  List.lookup key cache

/-- cache.put: store an entry under a key (newest entry shadows older). -/
def cachePut (cache : CacheState) (key : CacheKey) (entry : CachedEntry) : CacheState :=
  (key, entry) :: cache

/-- Outcome of one fetch(scriptURL): either the upstream responded with a
status, status text and body, or the fetch itself threw (transport
failure), carrying an error message or none for a non-Error value. -/
inductive FetchOutcome where
  | response (status : Nat) (statusText : String) (body : String)
  | throws (message : Option String)
deriving DecidableEq, Repr

/-- Response.ok: status in the 2xx range. -/
def responseOk (status : Nat) : Bool :=
  decide (200 ≤ status) && decide (status < 300)

/-- A response descriptor handed back to the caller. -/
structure ResponseDesc where
  status : Nat
  headers : List (String × String)
  body : String
deriving DecidableEq, Repr

/-- Header access on a response descriptor. -/
def headerGet (resp : ResponseDesc) (name : String) : Option String :=
  List.lookup name resp.headers

/-- The content type the worker sends on every text response. -/
def textPlain : String := "text/plain; charset=utf-8"

/-- The Cache-Control value the worker sends, built from the TTL constant. -/
def cacheControlValue : String := "public, max-age=" ++ toString CACHE_TTL

/-- The header set of a successful tool response (lines 107-112 of
src/src/index.ts), parametrised by the cache status tag. -/
def respHeaders (cacheStatus : String) : List (String × String) :=
  [("Content-Type", textPlain),
   ("Cache-Control", cacheControlValue),
   ("X-Cache-Status", cacheStatus),
   ("X-Worker-Version", "1.0.0")]

/-- The header set of the rebuilt response stored in the cache (lines
92-100 of src/src/index.ts). -/
def storedHeaders : List (String × String) :=
  [("Content-Type", textPlain),
   ("Cache-Control", cacheControlValue),
   ("X-Content-Source", "github")]

/-- The 404 body for an unregistered tool (lines 40-46 of
src/src/index.ts). -/
def notFoundBody (toolName : String) (domain : String) : String :=
  "Error: Tool \x27" ++ toolName ++ "\x27 not found.\n\nAvailable tools at: " ++ domain

/-- The result of running the tool-route handler once: the response handed
to the caller, the store task registered with waitUntil (none when nothing
is to be stored), and how many times the origin was fetched. -/
structure HandlerResult where
  response : ResponseDesc
  pendingStore : Option (CacheKey × CachedEntry)
  originCalls : Nat
deriving DecidableEq, Repr

/-- The tool-route handler of src/src/index.ts, lines 35-121, as a pure
function of the cache contents, the inbound request, and the outcome the
origin would produce if fetched. -/
def handleTool (cache : CacheState) (req : InboundRequest) (origin : FetchOutcome) :
    HandlerResult :=
  match lookupTool req.tool with
  | none =>
      let domain := (headerOf req "host").getD DEFAULT_DOMAIN
      { response := ⟨404, [("Content-Type", textPlain)], notFoundBody req.tool domain⟩,
        pendingStore := none,
        originCalls := 0 }
  | some cfg =>
      let key := cacheKey (scriptURL cfg)
      match cacheMatch cache key with
      | some entry =>
          { response := ⟨200, respHeaders "HIT", entry.body⟩,
            pendingStore := none,
            originCalls := 0 }
      | none =>
          match origin with
          | .throws msg =>
              { response := ⟨500, [("Content-Type", textPlain)],
                  "Internal Server Error: " ++ msg.getD "Unknown error"⟩,
                pendingStore := none,
                originCalls := 1 }
          | .response st _stText body =>
              if responseOk st then
                { response := ⟨200, respHeaders "MISS", body⟩,
                  pendingStore := some (key, ⟨st, storedHeaders, body, 0⟩),
                  originCalls := 1 }
              else
                { response := ⟨502, [("Content-Type", textPlain)],
                    "Error: Failed to fetch script from GitHub (Status: "
                      ++ toString st ++ ")"⟩,
                  pendingStore := none,
                  originCalls := 1 }

/-- Apply the background store after the response went out: on success the
pending entry is put under its key, on failure (or with nothing pending)
the cache is unchanged. The response of the request is already fixed at
this point. -/
def settle (cache : CacheState) (result : HandlerResult) (storeSucceeds : Bool) :
    CacheState :=
  match result.pendingStore, storeSucceeds with
  | some (key, entry), true => cachePut cache key entry
  | _, _ => cache

/-- One whole request: run the handler, then let the background store
settle with the given outcome; the first component is what the caller
saw, the second the cache contents afterwards. -/
def runRequest (cache : CacheState) (req : InboundRequest) (origin : FetchOutcome)
    (storeSucceeds : Bool) : ResponseDesc × CacheState :=
  let r := handleTool cache req origin
  (r.response, settle cache r storeSucceeds)

/-- The usage list on the home page (toolList in src/src/index.ts). -/
def toolListText (domain : String) : String :=
  String.intercalate "\n"
    (TOOLS.map (fun p => "- curl -sSL " ++ domain ++ "/" ++ p.1 ++ " | bash"))

/-- The home-page handler of src/src/index.ts, lines 22-32, as a function
of the caller-supplied host header. -/
def homePage (host : Option String) : ResponseDesc :=
  let domain := host.getD DEFAULT_DOMAIN
  ⟨200, [("Content-Type", textPlain)],
    "🚀 ngockhoi96 installer hub\n\nAvailable tools:\n" ++ toolListText domain
      ++ "\n\nUsage:\n  curl -sSL " ++ domain ++ "/<tool_name> | bash"⟩

/-- Does the pattern occur anywhere in the string, as a character
subsequence match over contiguous positions. -/
def containsSub (s pat : String) : Bool :=
  s.toList.tails.any (fun t => pat.toList.isPrefixOf t)

/-- C1: for a registered tool, the cache key the handler builds depends
only on the resolved origin URL and the GET method; two requests for the
same tool with arbitrary distinct header sets yield equal keys, and the
key is exactly the origin URL paired with GET. -/
theorem cache_key_ignores_headers (cfg : ToolConfig) (req1 req2 : InboundRequest)
    (h1 : lookupTool req1.tool = some cfg) (h2 : lookupTool req2.tool = some cfg)
    (_hdist : req1.headers ≠ req2.headers) :
    builtCacheKey req1 = builtCacheKey req2 ∧
    builtCacheKey req1 = some ⟨scriptURL cfg, "GET"⟩ := by
  constructor
  · simp [builtCacheKey, h1, h2]
  · simp [builtCacheKey, h1, cacheKey]

/-- C1 witness: a curl caller and a wget caller for the gohome tool obtain
the same key, which is the origin URL with method GET. -/
theorem cache_key_ignores_headers_witness :
    builtCacheKey ⟨"gohome", [("user-agent", "curl/7.81.0")]⟩ =
      builtCacheKey ⟨"gohome", [("user-agent", "Wget/1.21.2")]⟩ ∧
    builtCacheKey ⟨"gohome", [("user-agent", "curl/7.81.0")]⟩ =
      some ⟨scriptURL ⟨"anIcedAntFA/gohome", "scripts/install.sh"⟩, "GET"⟩ :=
  cache_key_ignores_headers ⟨"anIcedAntFA/gohome", "scripts/install.sh"⟩
    ⟨"gohome", [("user-agent", "curl/7.81.0")]⟩
    ⟨"gohome", [("user-agent", "Wget/1.21.2")]⟩
    (by decide) (by decide) (by decide)

/-- C2: for a registered tool, the first request against an empty cache is
tagged MISS and fetches the origin once; after the background store
settles, an immediate second request for the same tool is tagged HIT and
fetches the origin zero times. -/
theorem hit_miss_sequencing (req1 req2 : InboundRequest) (cfg : ToolConfig)
    (st : Nat) (stText body : String) (origin2 : FetchOutcome)
    (h1 : lookupTool req1.tool = some cfg) (heq : req2.tool = req1.tool)
    (hok : responseOk st = true) :
    headerGet (handleTool [] req1 (.response st stText body)).response
      "X-Cache-Status" = some "MISS" ∧
    (handleTool [] req1 (.response st stText body)).originCalls = 1 ∧
    headerGet (handleTool
      (settle [] (handleTool [] req1 (.response st stText body)) true)
      req2 origin2).response "X-Cache-Status" = some "HIT" ∧
    (handleTool
      (settle [] (handleTool [] req1 (.response st stText body)) true)
      req2 origin2).originCalls = 0 := by
  have hmiss : cacheMatch [] (cacheKey (scriptURL cfg)) = none := rfl
  refine ⟨?_, ?_, ?_, ?_⟩ <;>
    simp [handleTool, h1, heq, hok, hmiss, settle, cachePut, cacheMatch,
      headerGet, respHeaders, List.lookup, textPlain, cacheControlValue]

/-- C2 witness: the gohome tool on an empty cache, with the upstream
returning 200, yields MISS then HIT with one origin call then zero. -/
theorem hit_miss_sequencing_witness :
    headerGet (handleTool [] ⟨"gohome", []⟩
      (.response 200 "OK" "#!/bin/sh\necho hi")).response
      "X-Cache-Status" = some "MISS" ∧
    (handleTool [] ⟨"gohome", []⟩
      (.response 200 "OK" "#!/bin/sh\necho hi")).originCalls = 1 ∧
    headerGet (handleTool
      (settle [] (handleTool [] ⟨"gohome", []⟩
        (.response 200 "OK" "#!/bin/sh\necho hi")) true)
      ⟨"gohome", [("user-agent", "curl")]⟩ (.throws none)).response
      "X-Cache-Status" = some "HIT" ∧
    (handleTool
      (settle [] (handleTool [] ⟨"gohome", []⟩
        (.response 200 "OK" "#!/bin/sh\necho hi")) true)
      ⟨"gohome", [("user-agent", "curl")]⟩ (.throws none)).originCalls = 0 :=
  hit_miss_sequencing ⟨"gohome", []⟩ ⟨"gohome", [("user-agent", "curl")]⟩
    ⟨"anIcedAntFA/gohome", "scripts/install.sh"⟩ 200 "OK" "#!/bin/sh\necho hi"
    (.throws none) (by decide) (by decide) (by decide)

/-- C3: on a miss with a non-2xx upstream status the handler returns a 502
response, registers no store task, the cache is unchanged however the
background step settles, and a subsequent request for the same key fetches
the origin afresh. -/
theorem upstream_error_not_cached (cache : CacheState) (req : InboundRequest)
    (cfg : ToolConfig) (st : Nat) (stText body : String)
    (origin2 : FetchOutcome) (b : Bool)
    (hreg : lookupTool req.tool = some cfg)
    (hmiss : cacheMatch cache (cacheKey (scriptURL cfg)) = none)
    (hbad : responseOk st = false) :
    (handleTool cache req (.response st stText body)).response.status = 502 ∧
    (handleTool cache req (.response st stText body)).pendingStore = none ∧
    settle cache (handleTool cache req (.response st stText body)) b = cache ∧
    (handleTool
      (settle cache (handleTool cache req (.response st stText body)) b)
      req origin2).originCalls = 1 := by
  have hmain : handleTool cache req (.response st stText body) =
      { response := ⟨502, [("Content-Type", textPlain)],
          "Error: Failed to fetch script from GitHub (Status: "
            ++ toString st ++ ")"⟩,
        pendingStore := none,
        originCalls := 1 } := by
    simp [handleTool, hreg, hmiss, hbad]
  have hsettle : settle cache (handleTool cache req (.response st stText body)) b
      = cache := by
    rw [hmain]
    cases b <;> rfl
  refine ⟨by rw [hmain], by rw [hmain], hsettle, ?_⟩
  rw [hsettle]
  cases origin2 with
  | throws msg => simp [handleTool, hreg, hmiss]
  | response st2 stText2 body2 =>
      by_cases h2 : responseOk st2 = true <;>
        simp [handleTool, hreg, hmiss, h2]

/-- C3 witness: upstream 404 for gohome on an empty cache yields 502, no
stored entry, unchanged cache, and a fresh origin call on the retry. -/
theorem upstream_error_not_cached_witness :
    (handleTool [] ⟨"gohome", []⟩ (.response 404 "Not Found" "nope")).response.status
      = 502 ∧
    (handleTool [] ⟨"gohome", []⟩ (.response 404 "Not Found" "nope")).pendingStore
      = none ∧
    settle [] (handleTool [] ⟨"gohome", []⟩ (.response 404 "Not Found" "nope")) false
      = ([] : CacheState) ∧
    (handleTool
      (settle [] (handleTool [] ⟨"gohome", []⟩ (.response 404 "Not Found" "nope")) false)
      ⟨"gohome", []⟩ (.response 404 "Not Found" "nope")).originCalls = 1 :=
  upstream_error_not_cached [] ⟨"gohome", []⟩
    ⟨"anIcedAntFA/gohome", "scripts/install.sh"⟩ 404 "Not Found" "nope"
    (.response 404 "Not Found" "nope") false (by decide) (by decide) (by decide)

/-- C4: on a miss with a successful upstream response, the entry the
handler registers for storage sits under the request key, its body equals
byte for byte the body handed back to the caller, and after the store
settles that same body is retrievable from the cache under the key. -/
theorem body_fidelity (cache : CacheState) (req : InboundRequest)
    (cfg : ToolConfig) (st : Nat) (stText body : String)
    (hreg : lookupTool req.tool = some cfg)
    (hmiss : cacheMatch cache (cacheKey (scriptURL cfg)) = none)
    (hok : responseOk st = true) :
    ∃ entry : CachedEntry,
      (handleTool cache req (.response st stText body)).pendingStore
        = some (cacheKey (scriptURL cfg), entry) ∧
      entry.body = (handleTool cache req (.response st stText body)).response.body ∧
      cacheMatch
        (settle cache (handleTool cache req (.response st stText body)) true)
        (cacheKey (scriptURL cfg)) = some entry := by
  simp only [cacheMatch] at hmiss
  refine ⟨⟨st, storedHeaders, body, 0⟩, ?_, ?_, ?_⟩ <;>
    simp [handleTool, hreg, hmiss, hok, settle, cachePut, cacheMatch, List.lookup]

/-- C4 witness: for gohome on an empty cache with upstream 200 and a
concrete script body, the stored entry body equals the returned body and
is retrievable under the key. -/
theorem body_fidelity_witness :
    ∃ entry : CachedEntry,
      (handleTool [] ⟨"gohome", []⟩
        (.response 200 "OK" "#!/bin/sh\necho hi")).pendingStore
        = some (cacheKey (scriptURL ⟨"anIcedAntFA/gohome", "scripts/install.sh"⟩),
            entry) ∧
      entry.body = (handleTool [] ⟨"gohome", []⟩
        (.response 200 "OK" "#!/bin/sh\necho hi")).response.body ∧
      cacheMatch
        (settle [] (handleTool [] ⟨"gohome", []⟩
          (.response 200 "OK" "#!/bin/sh\necho hi")) true)
        (cacheKey (scriptURL ⟨"anIcedAntFA/gohome", "scripts/install.sh"⟩))
        = some entry :=
  body_fidelity [] ⟨"gohome", []⟩ ⟨"anIcedAntFA/gohome", "scripts/install.sh"⟩
    200 "OK" "#!/bin/sh\necho hi" (by decide) (by decide) (by decide)

/-- C5: every response for a registered tool that reaches the caller with
status 200 carries an X-Cache-Status header that is exactly HIT or MISS;
it is HIT precisely when the origin was not contacted and MISS precisely
when the origin was contacted. -/
theorem cache_status_header (cache : CacheState) (req : InboundRequest)
    (cfg : ToolConfig) (origin : FetchOutcome)
    (hreg : lookupTool req.tool = some cfg)
    (hsucc : (handleTool cache req origin).response.status = 200) :
    (headerGet (handleTool cache req origin).response "X-Cache-Status"
        = some "HIT" ∨
      headerGet (handleTool cache req origin).response "X-Cache-Status"
        = some "MISS") ∧
    (headerGet (handleTool cache req origin).response "X-Cache-Status"
        = some "HIT" ↔ (handleTool cache req origin).originCalls = 0) ∧
    (headerGet (handleTool cache req origin).response "X-Cache-Status"
        = some "MISS" ↔ (handleTool cache req origin).originCalls = 1) := by
  rcases hhit : cacheMatch cache (cacheKey (scriptURL cfg)) with _ | entry
  · cases origin with
    | throws msg =>
        exfalso
        simp [handleTool, hreg, hhit] at hsucc
    | response st stText body =>
        by_cases hok : responseOk st = true
        · refine ⟨Or.inr ?_, ?_, ?_⟩ <;>
            simp [handleTool, hreg, hhit, hok, headerGet, respHeaders,
              List.lookup, textPlain, cacheControlValue]
        · exfalso
          simp [handleTool, hreg, hhit, hok] at hsucc
  · refine ⟨Or.inl ?_, ?_, ?_⟩ <;>
      simp [handleTool, hreg, hhit, headerGet, respHeaders, List.lookup,
        textPlain, cacheControlValue]

/-- C5 witness: a miss for gohome with upstream 200 has status 200,
carries MISS, and the MISS tag coincides with one origin call. -/
theorem cache_status_header_witness :
    (headerGet (handleTool [] ⟨"gohome", []⟩
        (.response 200 "OK" "hi")).response "X-Cache-Status" = some "HIT" ∨
      headerGet (handleTool [] ⟨"gohome", []⟩
        (.response 200 "OK" "hi")).response "X-Cache-Status" = some "MISS") ∧
    (headerGet (handleTool [] ⟨"gohome", []⟩
        (.response 200 "OK" "hi")).response "X-Cache-Status" = some "HIT" ↔
      (handleTool [] ⟨"gohome", []⟩ (.response 200 "OK" "hi")).originCalls = 0) ∧
    (headerGet (handleTool [] ⟨"gohome", []⟩
        (.response 200 "OK" "hi")).response "X-Cache-Status" = some "MISS" ↔
      (handleTool [] ⟨"gohome", []⟩ (.response 200 "OK" "hi")).originCalls = 1) :=
  cache_status_header [] ⟨"gohome", []⟩
    ⟨"anIcedAntFA/gohome", "scripts/install.sh"⟩ (.response 200 "OK" "hi")
    (by decide) (by decide)

/-- C6 counterexample: for the unregistered identifier doesnotexist the
handler does answer 404, but the body does not list the registered
identifiers: the only registered identifier, gohome, does not occur in the
body at all, so the body cannot be a listing of exactly the registered
identifiers. -/
theorem not_found_body_lists_no_identifiers :
    (handleTool [] ⟨"doesnotexist", []⟩ (.throws none)).response.status = 404 ∧
    containsSub (handleTool [] ⟨"doesnotexist", []⟩
      (.throws none)).response.body "gohome" = false := by
  decide

/-- C6 amended: for every request whose identifier is not in the registry
the response has status 404 and its plain-text body names the unknown
identifier and the host domain where tools are available (the host header,
defaulting to the constant domain); no origin fetch and no store happen. -/
theorem not_found_response (cache : CacheState) (req : InboundRequest)
    (origin : FetchOutcome)
    (h : lookupTool req.tool = none) :
    (handleTool cache req origin).response.status = 404 ∧
    (handleTool cache req origin).response.body
      = notFoundBody req.tool ((headerOf req "host").getD DEFAULT_DOMAIN) ∧
    (handleTool cache req origin).pendingStore = none ∧
    (handleTool cache req origin).originCalls = 0 := by
  refine ⟨?_, ?_, ?_, ?_⟩ <;> simp [handleTool, h]

/-- C6 witness: the request for doesnotexist with no host header yields a
404 whose body names doesnotexist and the default domain. -/
theorem not_found_response_witness :
    (handleTool [] ⟨"doesnotexist", []⟩ (.throws none)).response.status = 404 ∧
    (handleTool [] ⟨"doesnotexist", []⟩ (.throws none)).response.body
      = notFoundBody "doesnotexist" DEFAULT_DOMAIN ∧
    (handleTool [] ⟨"doesnotexist", []⟩ (.throws none)).pendingStore = none ∧
    (handleTool [] ⟨"doesnotexist", []⟩ (.throws none)).originCalls = 0 :=
  not_found_response [] ⟨"doesnotexist", []⟩ (.throws none) (by decide)

/-- C7: the response of a whole request does not depend on the outcome of
the background store, and a failed store leaves the cache untouched; the
settle step returns plain cache contents, so no store failure surfaces as
an error across the request boundary. -/
theorem store_failure_isolation (cache : CacheState) (req : InboundRequest)
    (origin : FetchOutcome) (ok1 ok2 : Bool) :
    (runRequest cache req origin ok1).1 = (runRequest cache req origin ok2).1 ∧
    (runRequest cache req origin false).2 = cache := by
  constructor
  · rfl
  · show settle cache (handleTool cache req origin) false = cache
    rcases h : (handleTool cache req origin).pendingStore with _ | ⟨key, entry⟩ <;>
      simp [settle, h]

/-- C8: when the origin fetch itself throws, the handler returns a 500
response whose body is the plain-text error message, makes exactly one
origin attempt (no retry), registers no store task, and the cache is
unchanged however the background step settles. -/
theorem network_failure_500 (cache : CacheState) (req : InboundRequest)
    (cfg : ToolConfig) (msg : String) (b : Bool)
    (hreg : lookupTool req.tool = some cfg)
    (hmiss : cacheMatch cache (cacheKey (scriptURL cfg)) = none) :
    (handleTool cache req (.throws (some msg))).response.status = 500 ∧
    (handleTool cache req (.throws (some msg))).response.body
      = "Internal Server Error: " ++ msg ∧
    (handleTool cache req (.throws (some msg))).originCalls = 1 ∧
    (handleTool cache req (.throws (some msg))).pendingStore = none ∧
    settle cache (handleTool cache req (.throws (some msg))) b = cache := by
  have hmain : handleTool cache req (.throws (some msg)) =
      { response := ⟨500, [("Content-Type", textPlain)],
          "Internal Server Error: " ++ msg⟩,
        pendingStore := none,
        originCalls := 1 } := by
    simp [handleTool, hreg, hmiss]
  refine ⟨by rw [hmain], by rw [hmain], by rw [hmain], by rw [hmain], ?_⟩
  rw [hmain]
  cases b <;> rfl

/-- C8 witness: a transport failure with message fetch failed for gohome on
an empty cache yields a 500 with the message, one attempt, nothing stored. -/
theorem network_failure_500_witness :
    (handleTool [] ⟨"gohome", []⟩ (.throws (some "fetch failed"))).response.status
      = 500 ∧
    (handleTool [] ⟨"gohome", []⟩ (.throws (some "fetch failed"))).response.body
      = "Internal Server Error: " ++ "fetch failed" ∧
    (handleTool [] ⟨"gohome", []⟩ (.throws (some "fetch failed"))).originCalls = 1 ∧
    (handleTool [] ⟨"gohome", []⟩ (.throws (some "fetch failed"))).pendingStore
      = none ∧
    settle [] (handleTool [] ⟨"gohome", []⟩ (.throws (some "fetch failed"))) true
      = ([] : CacheState) :=
  network_failure_500 [] ⟨"gohome", []⟩
    ⟨"anIcedAntFA/gohome", "scripts/install.sh"⟩ "fetch failed" true
    (by decide) (by decide)

/-- C9: on the hit path the Cache-Control header handed to the caller is
always public, max-age=300, rebuilt from the TTL constant: whatever entry
the cache returns, however long it has resided there (its age field) and
whatever Cache-Control it was stored with, the returned max-age is the
full configured TTL. -/
theorem hit_cache_control_full_ttl (cache : CacheState) (req : InboundRequest)
    (cfg : ToolConfig) (entry : CachedEntry) (origin : FetchOutcome)
    (hreg : lookupTool req.tool = some cfg)
    (hhit : cacheMatch cache (cacheKey (scriptURL cfg)) = some entry) :
    headerGet (handleTool cache req origin).response "Cache-Control"
      = some "public, max-age=300" ∧
    cacheControlValue = "public, max-age=" ++ toString CACHE_TTL := by
  constructor
  · have hcc : cacheControlValue = "public, max-age=300" := by decide
    simp [handleTool, hreg, hhit, headerGet, respHeaders, List.lookup,
      textPlain, hcc]
  · rfl

/-- C9 witness: with a gohome entry that has already resided 250 seconds
in the cache and was stored with a shorter Cache-Control, the hit response
still says public, max-age=300. -/
theorem hit_cache_control_full_ttl_witness :
    headerGet (handleTool
      [(cacheKey (scriptURL ⟨"anIcedAntFA/gohome", "scripts/install.sh"⟩),
        ⟨200, [("Cache-Control", "public, max-age=50")], "echo hi", 250⟩)]
      ⟨"gohome", []⟩ (.throws none)).response "Cache-Control"
      = some "public, max-age=300" ∧
    cacheControlValue = "public, max-age=" ++ toString CACHE_TTL :=
  hit_cache_control_full_ttl
    [(cacheKey (scriptURL ⟨"anIcedAntFA/gohome", "scripts/install.sh"⟩),
      ⟨200, [("Cache-Control", "public, max-age=50")], "echo hi", 250⟩)]
    ⟨"gohome", []⟩ ⟨"anIcedAntFA/gohome", "scripts/install.sh"⟩
    ⟨200, [("Cache-Control", "public, max-age=50")], "echo hi", 250⟩
    (.throws none) (by decide) (by decide)

/-- C10: the home-page body and the 404 body incorporate the caller host
header, with the constant domain as fallback when the header is absent:
omitting the header is the same as sending the default domain, and two
requests for the same path that differ only in their host header can
receive different bodies, shown at concrete hosts for both routes. -/
theorem host_header_in_bodies :
    homePage none = homePage (some DEFAULT_DOMAIN) ∧
    (handleTool [] ⟨"doesnotexist", []⟩ (.throws none)).response.body
      = (handleTool [] ⟨"doesnotexist", [("host", DEFAULT_DOMAIN)]⟩
          (.throws none)).response.body ∧
    (homePage (some "a.example.com")).body ≠ (homePage (some "b.example.com")).body ∧
    (handleTool [] ⟨"doesnotexist", [("host", "a.example.com")]⟩
        (.throws none)).response.body
      ≠ (handleTool [] ⟨"doesnotexist", [("host", "b.example.com")]⟩
          (.throws none)).response.body := by
  refine ⟨?_, ?_, ?_, ?_⟩ <;> decide
